import Mathlib

/-!
Verification of the cc-run configuration reconciliation engine.

The development shallowly embeds the data model and the run/token command
logic of the launcher: JSON objects become association lists, the two
configuration documents become Lean structures, and each command becomes a
pure function from its inputs (the documents on disk, the prompted token,
the exit code of the external program) to a record of its observable
effects (the sequence of document writes, the constructed launch
environment, the final documents, the propagated exit code).
-/

namespace CcRun

/-- A JSON object of string values, as an association list (insertion order
preserved, as in JavaScript objects). -/
abbrev EnvMap := List (String × String)

/-- Key lookup in a JSON object: the value at the first matching key. -/
def envLookup (m : EnvMap) (k : String) : Option String :=
  (m.find? (fun p => p.1 == k)).map (fun p => p.2)

/-- JavaScript `delete obj[k]`: remove the key, keep the order of the rest. -/
def envDelete (m : EnvMap) (k : String) : EnvMap :=
  m.filter (fun p => p.1 != k)

/-- JavaScript `obj[k] = v`: replace the value at an existing key in place,
otherwise append the new key at the end. -/
def envSet : EnvMap → String → String → EnvMap
  | [], k, v => [(k, v)]
  | p :: rest, k, v => if p.1 == k then (k, v) :: rest else p :: envSet rest k v

/-- JavaScript truthiness of an optional string: `undefined` and the empty
string are falsy, every other string is truthy. -/
def truthy : Option String → Bool
  | none => false
  | some s => s != ""

/-- Set a key only when the optional value is truthy, mirroring the
`if (models.haiku) { env.X = models.haiku }` pattern of the source. -/
def setIfTruthy (m : EnvMap) (k : String) (v : Option String) : EnvMap :=
  if truthy v then envSet m k (v.getD "") else m

/-- JavaScript object spread `\x7b ...parent, ...overlay \x7d`: every key of the
overlay is written on top of the parent. -/
def mergeEnv (parent overlay : EnvMap) : EnvMap :=
  overlay.foldl (fun acc p => envSet acc p.1 p.2) parent

/-- Model mapping of a provider (src/config/types.ts, ModelMapping). -/
structure ModelMapping where
  haiku : Option String := none
  opus : Option String := none
  sonnet : Option String := none
deriving DecidableEq

/-- Endpoint descriptor (src/config/types.ts, Endpoint). -/
structure Endpoint where
  name : String
  endpoint : String
  token : Option String := none
  models : Option ModelMapping := none
deriving DecidableEq

/-- Proxy policy of the launcher (src/config/types.ts, ProxyConfig). -/
structure ProxyConfig where
  enabled : Bool
  url : Option String := none
  clearForOfficial : Option Bool := none
deriving DecidableEq

/-- Launcher-Config document, ~/.runcc/config.json
(src/config/types.ts, CcRunConfig). -/
structure CcRunConfig where
  endpoints : Option (List Endpoint) := none
  tokens : Option EnvMap := none
  lastUsed : Option String := none
  proxy : Option ProxyConfig := none
deriving DecidableEq

/-- Host-Config document, ~/.claude/settings.json
(src/config/types.ts, ClaudeSettings). -/
structure ClaudeSettings where
  proxy : Option String := none
  env : Option EnvMap := none
deriving DecidableEq

/-- Lookup in the env block of a Host-Config document. -/
def settingsEnvLookup (s : ClaudeSettings) (k : String) : Option String :=
  match s.env with
  | none => none
  | some m => envLookup m k

/-- The five ANTHROPIC env keys cleaned by the tool
(src/utils/claude-settings.ts, ANTHROPIC_ENV_KEYS). -/
def ANTHROPIC_ENV_KEYS : List String :=
  ["ANTHROPIC_AUTH_TOKEN", "ANTHROPIC_BASE_URL", "ANTHROPIC_DEFAULT_HAIKU_MODEL",
   "ANTHROPIC_DEFAULT_SONNET_MODEL", "ANTHROPIC_DEFAULT_OPUS_MODEL"]

/-- hasAnthropicEnv (src/utils/claude-settings.ts): some ANTHROPIC key has a
truthy value. -/
def hasAnthropicEnv (s : ClaudeSettings) : Bool :=
  match s.env with
  | none => false
  | some m => ANTHROPIC_ENV_KEYS.any (fun k => truthy (envLookup m k))

/-- clearAnthropicEnv (src/utils/claude-settings.ts): delete the five
ANTHROPIC keys; drop the env block entirely when it becomes empty. -/
def clearAnthropicEnv (s : ClaudeSettings) : ClaudeSettings :=
  match s.env with
  | none => s
  | some m =>
    let m1 := ANTHROPIC_ENV_KEYS.foldl envDelete m
    if m1.isEmpty then { s with env := none } else { s with env := some m1 }

/-- removeThirdPartyApi (src/utils/claude-settings.ts): delete the five
ANTHROPIC keys (in the order of the source), drop an emptied env block, and
persist the result. -/
def removeThirdPartyApi (s : ClaudeSettings) : ClaudeSettings :=
  match s.env with
  | none => s
  | some m =>
    let m1 := envDelete (envDelete (envDelete (envDelete (envDelete m
      "ANTHROPIC_BASE_URL") "ANTHROPIC_AUTH_TOKEN") "ANTHROPIC_DEFAULT_HAIKU_MODEL")
      "ANTHROPIC_DEFAULT_OPUS_MODEL") "ANTHROPIC_DEFAULT_SONNET_MODEL"
    if m1.isEmpty then { s with env := none } else { s with env := some m1 }

/-- setThirdPartyApi (src/utils/claude-settings.ts): set base URL and auth
token, plus any truthy model-mapping entries. -/
def setThirdPartyApi (s : ClaudeSettings) (apiUrl apiKey : String)
    (models : Option ModelMapping) : ClaudeSettings :=
  let m := s.env.getD []
  let m := envSet m "ANTHROPIC_BASE_URL" apiUrl
  let m := envSet m "ANTHROPIC_AUTH_TOKEN" apiKey
  let m := match models with
    | none => m
    | some mm =>
      setIfTruthy (setIfTruthy (setIfTruthy m "ANTHROPIC_DEFAULT_HAIKU_MODEL" mm.haiku)
        "ANTHROPIC_DEFAULT_OPUS_MODEL" mm.opus) "ANTHROPIC_DEFAULT_SONNET_MODEL" mm.sonnet
  { s with env := some m }

/-- removeClaudeProxy (src/utils/claude-settings.ts). -/
def removeClaudeProxy (s : ClaudeSettings) : ClaudeSettings :=
  { s with proxy := none }

/-- BUILTIN_ENDPOINTS (src/config/endpoints.ts). -/
def BUILTIN_ENDPOINTS : List Endpoint :=
  [{ name := "glm", endpoint := "https://open.bigmodel.cn/api/anthropic",
     models := some { haiku := some "glm-4.7", opus := some "glm-4.7", sonnet := some "glm-4.7" } },
   { name := "deepseek", endpoint := "https://api.deepseek.com/anthropic",
     models := some { haiku := some "deepseek-chat", opus := some "deepseek-chat", sonnet := some "deepseek-chat" } },
   { name := "minimax", endpoint := "https://api.minimax.io/anthropic",
     models := some { haiku := some "MiniMax-M2", opus := some "MiniMax-M2", sonnet := some "MiniMax-M2" } }]

/-- getBuiltinEndpoint (src/config/endpoints.ts). -/
def getBuiltinEndpoint (name : String) : Option Endpoint :=
  BUILTIN_ENDPOINTS.find? (fun ep => ep.name == name)

/-- isBuiltinEndpoint (src/config/endpoints.ts). -/
def isBuiltinEndpoint (name : String) : Bool :=
  BUILTIN_ENDPOINTS.any (fun ep => ep.name == name)

/-- getCustomEndpoints (src/config/storage.ts). -/
def getCustomEndpoints (c : CcRunConfig) : List Endpoint :=
  c.endpoints.getD []

/-- getToken (src/config/storage.ts): look up the tokens map. -/
def getToken (c : CcRunConfig) (provider : String) : Option String :=
  match c.tokens with
  | none => none
  | some t => envLookup t provider

/-- saveToken (src/config/storage.ts): upsert into the tokens map. -/
def saveToken (c : CcRunConfig) (provider token : String) : CcRunConfig :=
  { c with tokens := some (envSet (c.tokens.getD []) provider token) }

/-- setLastUsed (src/config/storage.ts). -/
def setLastUsed (c : CcRunConfig) (provider : String) : CcRunConfig :=
  { c with lastUsed := some provider }

/-- getProxyConfig (src/config/storage.ts). -/
def getProxyConfig (c : CcRunConfig) : ProxyConfig :=
  c.proxy.getD { enabled := false }

/-- Replace the token of the first endpoint with the given name
(the findIndex/update step of setCustomEndpointToken, src/config/storage.ts). -/
def updateEndpointToken (eps : List Endpoint) (name : String) (token : Option String) :
    Option (List Endpoint) :=
  match eps with
  | [] => none
  | ep :: rest =>
    if ep.name == name then some ({ ep with token := token } :: rest)
    else (updateEndpointToken rest name token).map (fun r => ep :: r)

/-- setCustomEndpointToken (src/config/storage.ts): returns success flag and
the resulting Launcher-Config. -/
def setCustomEndpointToken (c : CcRunConfig) (name : String) (token : Option String) :
    Bool × CcRunConfig :=
  match c.endpoints with
  | none => (false, c)
  | some eps =>
    match updateEndpointToken eps name token with
    | none => (false, c)
    | some eps1 => (true, { c with endpoints := some eps1 })

/-- getEndpointConfig (src/commands/run.ts): built-ins first, then the
custom endpoints of the Launcher-Config. -/
def getEndpointConfig (name : String) (c : CcRunConfig) : Option Endpoint :=
  if isBuiltinEndpoint name then getBuiltinEndpoint name
  else (getCustomEndpoints c).find? (fun ep => ep.name == name)

/-- Launch options (src/config/types.ts, LaunchOptions). -/
structure LaunchOptions where
  apiEndpoint : String
  apiKey : String
  proxyUrl : Option String := none
  models : Option ModelMapping := none

/-- buildEnv (src/utils/env.ts): endpoint, key, truthy model mappings, and
the four proxy variables when a proxy is configured. -/
def buildEnv (o : LaunchOptions) : EnvMap :=
  let env : EnvMap := [("ANTHROPIC_BASE_URL", o.apiEndpoint), ("ANTHROPIC_AUTH_TOKEN", o.apiKey)]
  let env := match o.models with
    | none => env
    | some mm =>
      setIfTruthy (setIfTruthy (setIfTruthy env "ANTHROPIC_DEFAULT_HAIKU_MODEL" mm.haiku)
        "ANTHROPIC_DEFAULT_OPUS_MODEL" mm.opus) "ANTHROPIC_DEFAULT_SONNET_MODEL" mm.sonnet
  if truthy o.proxyUrl then
    let u := o.proxyUrl.getD ""
    envSet (envSet (envSet (envSet env "http_proxy" u) "https_proxy" u) "HTTP_PROXY" u) "HTTPS_PROXY" u
  else env

/-- buildOfficialEnv (src/utils/env.ts): only the four proxy variables, and
only when a proxy URL is given. -/
def buildOfficialEnv (proxyUrl : Option String) : EnvMap :=
  if truthy proxyUrl then
    let u := proxyUrl.getD ""
    [("http_proxy", u), ("https_proxy", u), ("HTTP_PROXY", u), ("HTTPS_PROXY", u)]
  else []

/-- Endpoint-clear decision of runOfficial (src/commands/run.ts line 48):
`backup.env?.ANTHROPIC_BASE_URL || backup.env?.ANTHROPIC_AUTH_TOKEN`. -/
def officialClearEndpoint (disk : ClaudeSettings) : Bool :=
  truthy (settingsEnvLookup disk "ANTHROPIC_BASE_URL") ||
    truthy (settingsEnvLookup disk "ANTHROPIC_AUTH_TOKEN")

/-- Proxy-clear decision of runOfficial (src/commands/run.ts line 55):
`proxyConfig.clearForOfficial && claudeProxy !== undefined`. -/
def officialShouldClearProxy (pc : ProxyConfig) (disk : ClaudeSettings) : Bool :=
  (pc.clearForOfficial == some true) && disk.proxy.isSome

/-- Host-Config document on disk after the pre-launch mutation phase of
runOfficial: removeThirdPartyApi when the endpoint-clear decision holds, then
removeClaudeProxy when the proxy-clear decision holds. -/
def officialMutatedDisk (pc : ProxyConfig) (disk : ClaudeSettings) : ClaudeSettings :=
  let d1 := if officialClearEndpoint disk then removeThirdPartyApi disk else disk
  if officialShouldClearProxy pc disk then removeClaudeProxy d1 else d1

/-- The Host-Config writes performed by the mutation phase of runOfficial, in
order (each of removeThirdPartyApi and removeClaudeProxy reads the current
file and writes its patched version). -/
def officialMutateWrites (pc : ProxyConfig) (disk : ClaudeSettings) : List ClaudeSettings :=
  (if officialClearEndpoint disk then [removeThirdPartyApi disk] else []) ++
    (if officialShouldClearProxy pc disk then [officialMutatedDisk pc disk] else [])

/-- needsRestore flag of runOfficial after the mutation phase. -/
def officialNeedsRestore (pc : ProxyConfig) (disk : ClaudeSettings) : Bool :=
  officialClearEndpoint disk || officialShouldClearProxy pc disk

/-- useProxy value of runOfficial (src/commands/run.ts line 56). -/
def officialUseProxy (pc : ProxyConfig) (disk : ClaudeSettings) : Option String :=
  if officialShouldClearProxy pc disk then none else disk.proxy

/-- Observable effects of one runOfficial invocation. -/
structure OfficialRun where
  clearedEndpoint : Bool
  clearedProxy : Bool
  hostWrites : List ClaudeSettings
  launchEnv : EnvMap
  finalHost : ClaudeSettings
  toolExit : Nat
deriving DecidableEq

/-- runOfficial (src/commands/run.ts lines 37-79), normal path: the spawned
program exits with `claudeExit`. Inputs: the launcher proxy policy, the
Host-Config document on disk, and the exit code of the external program.
The backup is the document read at entry; restoration rewrites it verbatim
when any clear happened. -/
def runOfficial (pc : ProxyConfig) (disk : ClaudeSettings) (claudeExit : Nat) : OfficialRun :=
  { clearedEndpoint := officialClearEndpoint disk,
    clearedProxy := officialShouldClearProxy pc disk,
    hostWrites := officialMutateWrites pc disk ++
      (if officialNeedsRestore pc disk then [disk] else []),
    launchEnv := buildOfficialEnv (officialUseProxy pc disk),
    finalHost := if officialNeedsRestore pc disk then disk else officialMutatedDisk pc disk,
    toolExit := claudeExit }

/-- Outcome of the spawn of the external program. -/
inductive SpawnOutcome where
  | exited (code : Nat)
  | spawnError
deriving DecidableEq

/-- Observable effects of a runOfficial invocation whose spawn may fail. -/
structure OfficialSpawnRun where
  hostWrites : List ClaudeSettings
  restoreAttempted : Bool
  finalHost : ClaudeSettings
  toolExit : Option Nat
deriving DecidableEq

/-- runOfficial together with the spawn-failure path. waitForExit
(src/utils/launcher.ts lines 49-55) subscribes only to the close event of the
child process; no listener for the error event is registered anywhere and
runOfficial has no try/finally, so a spawn-level failure surfaces as an
unhandled error event that aborts the process before the awaited promise
resolves: the code after `await waitForExit(child)` - including the
restoration - never runs, and no exit code is propagated by the tool logic. -/
def runOfficialSpawn (pc : ProxyConfig) (disk : ClaudeSettings)
    (outcome : SpawnOutcome) : OfficialSpawnRun :=
  match outcome with
  | .exited code =>
      { hostWrites := officialMutateWrites pc disk ++
          (if officialNeedsRestore pc disk then [disk] else []),
        restoreAttempted := officialNeedsRestore pc disk,
        finalHost := if officialNeedsRestore pc disk then disk else officialMutatedDisk pc disk,
        toolExit := some code }
  | .spawnError =>
      { hostWrites := officialMutateWrites pc disk,
        restoreAttempted := false,
        finalHost := officialMutatedDisk pc disk,
        toolExit := none }

/-- Token resolution of runProvider (src/commands/run.ts lines 97-101):
`let token = endpoint.token || getToken(name); if (!token) prompt and
saveToken`. Returns the token used and whether the prompt ran. -/
def resolveToken (ep : Endpoint) (c : CcRunConfig) (name promptedToken : String) :
    String × Bool :=
  let tokenInit := if truthy ep.token then ep.token else getToken c name
  if truthy tokenInit then (tokenInit.getD "", false) else (promptedToken, true)

/-- Observable effects of one runProvider invocation. -/
structure ProviderRun where
  userError : Bool
  prompted : Bool
  clearedEnv : Bool
  ccWrites : List CcRunConfig
  hostWrites : List ClaudeSettings
  launched : Option EnvMap
  finalCc : CcRunConfig
  finalHost : ClaudeSettings
  toolExit : Nat
deriving DecidableEq

/-- runProvider (src/commands/run.ts lines 87-151), normal path. Inputs: the
provider name, the persist flag (configureClaude), the two documents on
disk, the answer the user would give to the token prompt, and the exit code
of the external program. An unknown provider exits with status 1 before any
write or launch. In temporary mode a truthy ANTHROPIC key triggers a clear
of a deep copy and a write; in persist mode setThirdPartyApi writes the new
endpoint permanently and the backup is not restored. -/
def runProvider (providerName : String) (configureClaude : Bool)
    (cc : CcRunConfig) (disk : ClaudeSettings)
    (promptedToken : String) (claudeExit : Nat) : ProviderRun :=
  match getEndpointConfig providerName cc with
  | none =>
      { userError := true, prompted := false, clearedEnv := false,
        ccWrites := [], hostWrites := [], launched := none,
        finalCc := cc, finalHost := disk, toolExit := 1 }
  | some ep =>
    let resolved := resolveToken ep cc providerName promptedToken
    let token := resolved.1
    let prompted := resolved.2
    let cc1 := if prompted then saveToken cc providerName promptedToken else cc
    let ccWrites1 : List CcRunConfig := if prompted then [cc1] else []
    let cc2 := setLastUsed cc1 providerName
    let proxyConfig := getProxyConfig cc2
    let proxyUrl := if proxyConfig.enabled then proxyConfig.url else none
    let needsRestore := hasAnthropicEnv disk
    let disk1 := if needsRestore then clearAnthropicEnv disk else disk
    let hostWrites1 : List ClaudeSettings := if needsRestore then [disk1] else []
    let disk2 := if configureClaude then setThirdPartyApi disk1 ep.endpoint token ep.models else disk1
    let hostWrites2 := if configureClaude then hostWrites1 ++ [disk2] else hostWrites1
    let env := buildEnv { apiEndpoint := ep.endpoint, apiKey := token,
                          proxyUrl := proxyUrl, models := ep.models }
    let disk3 := if needsRestore && !configureClaude then disk else disk2
    let hostWrites3 := if needsRestore && !configureClaude then hostWrites2 ++ [disk] else hostWrites2
    { userError := false, prompted := prompted, clearedEnv := needsRestore,
      ccWrites := ccWrites1 ++ [cc2], hostWrites := hostWrites3, launched := some env,
      finalCc := cc2, finalHost := disk3, toolExit := claudeExit }

/-- Observable effects of one restoreOfficial invocation. -/
structure RestoreRun where
  hostWrites : List ClaudeSettings
  launched : Option EnvMap
  finalHost : ClaudeSettings
  toolExit : Nat
deriving DecidableEq

/-- restoreOfficial (src/commands/run.ts lines 157-167): always
removeThirdPartyApi (which always writes); launch the external program with
buildOfficialEnv of no proxy only when passthrough arguments exist, in which
case its exit code is propagated; otherwise the command returns and the tool
exits 0. -/
def restoreOfficial (passthroughArgs : List String) (disk : ClaudeSettings)
    (claudeExit : Nat) : RestoreRun :=
  let disk1 := removeThirdPartyApi disk
  if passthroughArgs.isEmpty then
    { hostWrites := [disk1], launched := none, finalHost := disk1, toolExit := 0 }
  else
    { hostWrites := [disk1], launched := some (buildOfficialEnv none),
      finalHost := disk1, toolExit := claudeExit }

/-- isCustomEndpoint (src/commands/token.ts). -/
def isCustomEndpoint (name : String) (c : CcRunConfig) : Bool :=
  (getCustomEndpoints c).any (fun ep => ep.name == name)

/-- Observable effects of one tokenSet invocation. -/
structure TokenSetRun where
  userError : Bool
  finalCc : CcRunConfig
deriving DecidableEq

/-- tokenSet (src/commands/token.ts lines 45-60): unknown providers exit 1;
built-in providers store the token in the tokens map; custom providers store
it in their own descriptor. A missing argument token is prompted for. -/
def tokenSet (provider : String) (given : Option String) (promptedAnswer : String)
    (cc : CcRunConfig) : TokenSetRun :=
  if !(isBuiltinEndpoint provider || isCustomEndpoint provider cc) then
    { userError := true, finalCc := cc }
  else
    let finalToken := if truthy given then given.getD "" else promptedAnswer
    if isBuiltinEndpoint provider then
      { userError := false, finalCc := saveToken cc provider finalToken }
    else
      { userError := false, finalCc := (setCustomEndpointToken cc provider (some finalToken)).2 }

/-- The Launcher-Config tokens map holds entries only for built-in provider
names. -/
def tokensOnlyBuiltin (c : CcRunConfig) : Bool :=
  (c.tokens.getD []).all (fun kv => isBuiltinEndpoint kv.1)

/-! Basic lemmas about the JSON-object operations. -/

theorem envLookup_envSet_self (m : EnvMap) (k v : String) :
    envLookup (envSet m k v) k = some v := by
  induction m with
  | nil => simp [envSet, envLookup]
  | cons p rest ih =>
    by_cases h : p.1 = k
    · simp [envSet, h, envLookup]
    · have hb : (p.1 == k) = false := by simp [h]
      simpa [envSet, hb, envLookup, List.find?] using ih

theorem envLookup_envSet_ne (m : EnvMap) (k v k1 : String) (h : k1 ≠ k) :
    envLookup (envSet m k v) k1 = envLookup m k1 := by
  have hk : (k == k1) = false := beq_eq_false_iff_ne.mpr (Ne.symm h)
  induction m with
  | nil => simp [envSet, envLookup, List.find?, hk]
  | cons p rest ih =>
    by_cases hp : p.1 = k
    · have hb : (p.1 == k) = true := by simp [hp]
      have hbk1 : (p.1 == k1) = false := by rw [hp]; exact hk
      simp [envSet, hb, envLookup, List.find?, hk, hbk1]
    · have hb : (p.1 == k) = false := beq_eq_false_iff_ne.mpr hp
      cases hq : (p.1 == k1) with
      | true => simp [envSet, hb, envLookup, List.find?, hq]
      | false => simpa [envSet, hb, envLookup, List.find?, hq] using ih

theorem envLookup_envDelete (m : EnvMap) (k k1 : String) :
    envLookup (envDelete m k) k1 = if k1 = k then none else envLookup m k1 := by
  induction m with
  | nil => simp [envDelete, envLookup]
  | cons p rest ih =>
    by_cases hp : p.1 = k
    · have hb : (p.1 != k) = false := by simp [hp]
      by_cases h1 : k1 = k
      · simpa [envDelete, hb, h1] using ih
      · have hbk1 : (p.1 == k1) = false :=
          beq_eq_false_iff_ne.mpr (by rw [hp]; exact Ne.symm h1)
        simpa [envDelete, hb, envLookup, List.find?, h1, hbk1] using ih
    · have hb : (p.1 != k) = true := by simp [hp]
      cases hq : (p.1 == k1) with
      | true =>
        have h1 : ¬ (k1 = k) := by
          intro hk
          exact hp (by rw [← hk]; exact eq_of_beq hq)
        simp [envDelete, hb, envLookup, List.find?, hq, h1]
      | false => simpa [envDelete, hb, envLookup, List.find?, hq] using ih

theorem envLookup_setIfTruthy_ne (m : EnvMap) (k : String) (v : Option String)
    (k1 : String) (h : k1 ≠ k) :
    envLookup (setIfTruthy m k v) k1 = envLookup m k1 := by
  unfold setIfTruthy
  split
  · exact envLookup_envSet_ne m k (v.getD "") k1 h
  · rfl

theorem envLookup_foldl_envDelete (ks : List String) (m : EnvMap) (k : String) :
    envLookup (ks.foldl envDelete m) k = if k ∈ ks then none else envLookup m k := by
  induction ks generalizing m with
  | nil => simp
  | cons a ks ih =>
    simp only [List.foldl_cons]
    rw [ih (envDelete m a), envLookup_envDelete]
    by_cases h1 : k ∈ ks
    · simp [h1]
    · by_cases h2 : k = a <;> simp [h1, h2]

theorem mem_foldl_envDelete (ks : List String) (m : EnvMap) (p : String × String)
    (h : p ∈ ks.foldl envDelete m) : p ∈ m ∧ p.1 ∉ ks := by
  induction ks generalizing m with
  | nil => simpa using h
  | cons a ks ih =>
    simp only [List.foldl_cons] at h
    obtain ⟨hmem, hks⟩ := ih (envDelete m a) h
    have := List.mem_filter.mp hmem
    refine ⟨this.1, ?_⟩
    simp only [List.mem_cons, not_or]
    exact ⟨by simpa using this.2, hks⟩

theorem foldl_envDelete_of_disjoint (ks : List String) (m : EnvMap)
    (h : ∀ p ∈ m, p.1 ∉ ks) : ks.foldl envDelete m = m := by
  induction ks generalizing m with
  | nil => rfl
  | cons a ks ih =>
    simp only [List.foldl_cons]
    have hda : envDelete m a = m := by
      apply List.filter_eq_self.mpr
      intro p hp
      have := h p hp
      simp only [List.mem_cons, not_or] at this
      simpa using this.1
    rw [hda]
    exact ih m (fun p hp => by
      have := h p hp
      simp only [List.mem_cons, not_or] at this
      exact this.2)

theorem envLookup_mergeEnv_of_keys_ne (parent overlay : EnvMap) (k : String)
    (h : ∀ p ∈ overlay, p.1 ≠ k) :
    envLookup (mergeEnv parent overlay) k = envLookup parent k := by
  induction overlay generalizing parent with
  | nil => rfl
  | cons q rest ih =>
    unfold mergeEnv at *
    simp only [List.foldl_cons]
    rw [ih (envSet parent q.1 q.2) (fun p hp => h p (List.mem_cons_of_mem q hp))]
    exact envLookup_envSet_ne parent q.1 q.2 k (Ne.symm (h q (List.mem_cons_self q rest)))

/-! Lemmas about the Host-Config operations. -/

theorem mem_removeOrder_iff (k : String) :
    k ∈ (["ANTHROPIC_BASE_URL", "ANTHROPIC_AUTH_TOKEN", "ANTHROPIC_DEFAULT_HAIKU_MODEL",
      "ANTHROPIC_DEFAULT_OPUS_MODEL", "ANTHROPIC_DEFAULT_SONNET_MODEL"] : List String) ↔
    k ∈ ANTHROPIC_ENV_KEYS := by
  simp [ANTHROPIC_ENV_KEYS]
  tauto

theorem removeThirdPartyApi_some (pr : Option String) (m : EnvMap) :
    removeThirdPartyApi ⟨pr, some m⟩ =
      if ((["ANTHROPIC_BASE_URL", "ANTHROPIC_AUTH_TOKEN", "ANTHROPIC_DEFAULT_HAIKU_MODEL",
        "ANTHROPIC_DEFAULT_OPUS_MODEL", "ANTHROPIC_DEFAULT_SONNET_MODEL"] : List String).foldl envDelete m).isEmpty
      then ⟨pr, none⟩
      else ⟨pr, some ((["ANTHROPIC_BASE_URL", "ANTHROPIC_AUTH_TOKEN", "ANTHROPIC_DEFAULT_HAIKU_MODEL",
        "ANTHROPIC_DEFAULT_OPUS_MODEL", "ANTHROPIC_DEFAULT_SONNET_MODEL"] : List String).foldl envDelete m)⟩ := rfl

theorem settingsEnvLookup_removeThirdPartyApi (s : ClaudeSettings) (k : String) :
    settingsEnvLookup (removeThirdPartyApi s) k =
      if k ∈ ANTHROPIC_ENV_KEYS then none else settingsEnvLookup s k := by
  obtain ⟨pr, env⟩ := s
  cases env with
  | none =>
    show settingsEnvLookup ⟨pr, none⟩ k = _
    simp [settingsEnvLookup]
  | some m =>
    rw [removeThirdPartyApi_some]
    have hlook := envLookup_foldl_envDelete
      (["ANTHROPIC_BASE_URL", "ANTHROPIC_AUTH_TOKEN", "ANTHROPIC_DEFAULT_HAIKU_MODEL",
        "ANTHROPIC_DEFAULT_OPUS_MODEL", "ANTHROPIC_DEFAULT_SONNET_MODEL"] : List String) m k
    by_cases hemp : ((["ANTHROPIC_BASE_URL", "ANTHROPIC_AUTH_TOKEN", "ANTHROPIC_DEFAULT_HAIKU_MODEL",
        "ANTHROPIC_DEFAULT_OPUS_MODEL", "ANTHROPIC_DEFAULT_SONNET_MODEL"] : List String).foldl envDelete m).isEmpty
    · rw [List.isEmpty_iff.mp hemp] at hlook
      simp only [hemp, if_true]
      show settingsEnvLookup ⟨pr, none⟩ k = _
      by_cases hk : k ∈ ANTHROPIC_ENV_KEYS
      · simp [settingsEnvLookup, hk]
      · have hro : ¬ k ∈ (["ANTHROPIC_BASE_URL", "ANTHROPIC_AUTH_TOKEN",
          "ANTHROPIC_DEFAULT_HAIKU_MODEL", "ANTHROPIC_DEFAULT_OPUS_MODEL",
          "ANTHROPIC_DEFAULT_SONNET_MODEL"] : List String) :=
          fun hmem => hk ((mem_removeOrder_iff k).mp hmem)
        rw [if_neg hro] at hlook
        have hmk : envLookup m k = none := by rw [← hlook]; rfl
        simp only [settingsEnvLookup, hk, if_neg hk]
        exact hmk.symm
    · simp only [hemp, if_false]
      show envLookup _ k = _
      rw [hlook]
      by_cases hk : k ∈ ANTHROPIC_ENV_KEYS
      · simp [hk, (mem_removeOrder_iff k).mpr hk]
      · have hro : ¬ k ∈ (["ANTHROPIC_BASE_URL", "ANTHROPIC_AUTH_TOKEN",
          "ANTHROPIC_DEFAULT_HAIKU_MODEL", "ANTHROPIC_DEFAULT_OPUS_MODEL",
          "ANTHROPIC_DEFAULT_SONNET_MODEL"] : List String) :=
          fun hmem => hk ((mem_removeOrder_iff k).mp hmem)
        simp [hk, hro, settingsEnvLookup]

theorem clearAnthropicEnv_some (pr : Option String) (m : EnvMap) :
    clearAnthropicEnv ⟨pr, some m⟩ =
      if (ANTHROPIC_ENV_KEYS.foldl envDelete m).isEmpty then ⟨pr, none⟩
      else ⟨pr, some (ANTHROPIC_ENV_KEYS.foldl envDelete m)⟩ := rfl

theorem settingsEnvLookup_clearAnthropicEnv (s : ClaudeSettings) (k : String) :
    settingsEnvLookup (clearAnthropicEnv s) k =
      if k ∈ ANTHROPIC_ENV_KEYS then none else settingsEnvLookup s k := by
  obtain ⟨pr, env⟩ := s
  cases env with
  | none =>
    show settingsEnvLookup ⟨pr, none⟩ k = _
    simp [settingsEnvLookup]
  | some m =>
    rw [clearAnthropicEnv_some]
    have hlook := envLookup_foldl_envDelete ANTHROPIC_ENV_KEYS m k
    by_cases hemp : (ANTHROPIC_ENV_KEYS.foldl envDelete m).isEmpty
    · rw [List.isEmpty_iff.mp hemp] at hlook
      simp only [hemp, if_true]
      show settingsEnvLookup ⟨pr, none⟩ k = _
      by_cases hk : k ∈ ANTHROPIC_ENV_KEYS
      · simp [settingsEnvLookup, hk]
      · rw [if_neg hk] at hlook
        have hmk : envLookup m k = none := by rw [← hlook]; rfl
        simp only [settingsEnvLookup, hk, if_neg hk]
        exact hmk.symm
    · simp only [hemp, if_false]
      show envLookup _ k = _
      rw [hlook]
      by_cases hk : k ∈ ANTHROPIC_ENV_KEYS <;> simp [hk, settingsEnvLookup]

theorem hasAnthropicEnv_eq_any (s : ClaudeSettings) :
    hasAnthropicEnv s = ANTHROPIC_ENV_KEYS.any (fun k => truthy (settingsEnvLookup s k)) := by
  obtain ⟨pr, env⟩ := s
  cases env with
  | none => simp [hasAnthropicEnv, settingsEnvLookup, ANTHROPIC_ENV_KEYS, truthy]
  | some m => rfl

theorem hasAnthropicEnv_eq_false_of_lookups (s : ClaudeSettings)
    (h : ∀ k ∈ ANTHROPIC_ENV_KEYS, truthy (settingsEnvLookup s k) = false) :
    hasAnthropicEnv s = false := by
  rw [hasAnthropicEnv_eq_any]
  simp only [List.any_eq_false]
  intro k hk
  simp [h k hk]

theorem settingsEnvLookup_setThirdPartyApi_base (s : ClaudeSettings)
    (apiUrl apiKey : String) (models : Option ModelMapping) :
    settingsEnvLookup (setThirdPartyApi s apiUrl apiKey models) "ANTHROPIC_BASE_URL" = some apiUrl := by
  unfold setThirdPartyApi settingsEnvLookup
  simp only []
  cases models with
  | none =>
    rw [envLookup_envSet_ne _ _ _ _ (by decide)]
    exact envLookup_envSet_self _ _ _
  | some mm =>
    rw [envLookup_setIfTruthy_ne _ _ _ _ (by decide),
      envLookup_setIfTruthy_ne _ _ _ _ (by decide),
      envLookup_setIfTruthy_ne _ _ _ _ (by decide),
      envLookup_envSet_ne _ _ _ _ (by decide)]
    exact envLookup_envSet_self _ _ _

theorem settingsEnvLookup_setThirdPartyApi_auth (s : ClaudeSettings)
    (apiUrl apiKey : String) (models : Option ModelMapping) :
    settingsEnvLookup (setThirdPartyApi s apiUrl apiKey models) "ANTHROPIC_AUTH_TOKEN" = some apiKey := by
  unfold setThirdPartyApi settingsEnvLookup
  simp only []
  cases models with
  | none => exact envLookup_envSet_self _ _ _
  | some mm =>
    rw [envLookup_setIfTruthy_ne _ _ _ _ (by decide),
      envLookup_setIfTruthy_ne _ _ _ _ (by decide),
      envLookup_setIfTruthy_ne _ _ _ _ (by decide)]
    exact envLookup_envSet_self _ _ _

theorem removeThirdPartyApi_idem (s : ClaudeSettings) :
    removeThirdPartyApi (removeThirdPartyApi s) = removeThirdPartyApi s := by
  obtain ⟨pr, env⟩ := s
  cases env with
  | none => rfl
  | some m =>
    rw [removeThirdPartyApi_some]
    by_cases hemp : ((["ANTHROPIC_BASE_URL", "ANTHROPIC_AUTH_TOKEN", "ANTHROPIC_DEFAULT_HAIKU_MODEL",
        "ANTHROPIC_DEFAULT_OPUS_MODEL", "ANTHROPIC_DEFAULT_SONNET_MODEL"] : List String).foldl envDelete m).isEmpty
    · rw [if_pos hemp]
      rfl
    · rw [if_neg hemp, removeThirdPartyApi_some]
      have hkeys : ∀ p ∈ (["ANTHROPIC_BASE_URL", "ANTHROPIC_AUTH_TOKEN",
          "ANTHROPIC_DEFAULT_HAIKU_MODEL", "ANTHROPIC_DEFAULT_OPUS_MODEL",
          "ANTHROPIC_DEFAULT_SONNET_MODEL"] : List String).foldl envDelete m,
          p.1 ∉ (["ANTHROPIC_BASE_URL", "ANTHROPIC_AUTH_TOKEN", "ANTHROPIC_DEFAULT_HAIKU_MODEL",
          "ANTHROPIC_DEFAULT_OPUS_MODEL", "ANTHROPIC_DEFAULT_SONNET_MODEL"] : List String) :=
        fun p hp => (mem_foldl_envDelete _ m p hp).2
      rw [foldl_envDelete_of_disjoint _ _ hkeys, if_neg hemp]

theorem envLookup_buildOfficialEnv_of_ne (u : Option String) (k : String)
    (hk1 : k ≠ "http_proxy") (hk2 : k ≠ "https_proxy")
    (hk3 : k ≠ "HTTP_PROXY") (hk4 : k ≠ "HTTPS_PROXY") :
    envLookup (buildOfficialEnv u) k = none := by
  have h1 : (("http_proxy" : String) == k) = false := beq_eq_false_iff_ne.mpr (Ne.symm hk1)
  have h2 : (("https_proxy" : String) == k) = false := beq_eq_false_iff_ne.mpr (Ne.symm hk2)
  have h3 : (("HTTP_PROXY" : String) == k) = false := beq_eq_false_iff_ne.mpr (Ne.symm hk3)
  have h4 : (("HTTPS_PROXY" : String) == k) = false := beq_eq_false_iff_ne.mpr (Ne.symm hk4)
  unfold buildOfficialEnv
  split
  · simp [envLookup, List.find?, h1, h2, h3, h4]
  · rfl

theorem buildOfficialEnv_keys (u : Option String) :
    ∀ p ∈ buildOfficialEnv u, p.1 = "http_proxy" ∨ p.1 = "https_proxy" ∨
      p.1 = "HTTP_PROXY" ∨ p.1 = "HTTPS_PROXY" := by
  unfold buildOfficialEnv
  split
  · intro p hp
    simp only [List.mem_cons, List.not_mem_nil, or_false] at hp
    rcases hp with h | h | h | h <;> subst h <;> simp
  · intro p hp
    exact absurd hp (List.not_mem_nil p)

/-! Claim theorems. -/

/-- Claim C1, restoration idempotence: for every Host-Config snapshot and
every temporary-mode launch (runOfficial, or runProvider with the persist
flag off) that completes with any exit code, the Host-Config document after
the run equals the pre-launch snapshot. -/
theorem restoration_idempotence (pc : ProxyConfig) (disk : ClaudeSettings) (e : Nat)
    (name : String) (cc : CcRunConfig) (tok : String) :
    (runOfficial pc disk e).finalHost = disk ∧
    (runProvider name false cc disk tok e).finalHost = disk := by
  constructor
  · unfold runOfficial officialNeedsRestore officialMutatedDisk
    by_cases h1 : officialClearEndpoint disk <;>
      by_cases h2 : officialShouldClearProxy pc disk <;> simp [h1, h2]
  · cases h : getEndpointConfig name cc with
    | none => simp [runProvider, h]
    | some ep =>
      simp only [runProvider, h]
      by_cases hA : hasAnthropicEnv disk <;> simp [hA]

/-- Claim C5, environment exclusivity: the launch environment constructed in
Official mode contains neither ANTHROPIC_BASE_URL nor ANTHROPIC_AUTH_TOKEN,
for every Host-Config state and proxy setting; merging it over any parent
environment leaves those two keys exactly as in the parent. -/
theorem environment_exclusivity (pc : ProxyConfig) (disk : ClaudeSettings) (e : Nat)
    (parent : EnvMap) :
    envLookup (runOfficial pc disk e).launchEnv "ANTHROPIC_BASE_URL" = none ∧
    envLookup (runOfficial pc disk e).launchEnv "ANTHROPIC_AUTH_TOKEN" = none ∧
    envLookup (mergeEnv parent (runOfficial pc disk e).launchEnv) "ANTHROPIC_BASE_URL"
      = envLookup parent "ANTHROPIC_BASE_URL" ∧
    envLookup (mergeEnv parent (runOfficial pc disk e).launchEnv) "ANTHROPIC_AUTH_TOKEN"
      = envLookup parent "ANTHROPIC_AUTH_TOKEN" := by
  have hkeys : ∀ k1 : String, k1 = "ANTHROPIC_BASE_URL" ∨ k1 = "ANTHROPIC_AUTH_TOKEN" →
      ∀ p ∈ buildOfficialEnv (officialUseProxy pc disk), p.1 ≠ k1 := by
    intro k1 hk1 p hp
    rcases buildOfficialEnv_keys _ p hp with h | h | h | h <;>
      rcases hk1 with h1 | h1 <;> subst h1 <;> rw [h] <;> decide
  refine ⟨?_, ?_, ?_, ?_⟩
  · exact envLookup_buildOfficialEnv_of_ne _ _ (by decide) (by decide) (by decide) (by decide)
  · exact envLookup_buildOfficialEnv_of_ne _ _ (by decide) (by decide) (by decide) (by decide)
  · exact envLookup_mergeEnv_of_keys_ne parent _ _ (hkeys _ (Or.inl rfl))
  · exact envLookup_mergeEnv_of_keys_ne parent _ _ (hkeys _ (Or.inr rfl))

/-- Claim C9, unknown provider: when the name resolves to neither a built-in
nor a custom endpoint, a provider-mode launch exits with status 1, launches
nothing, and mutates neither document. -/
theorem unknown_provider_rejected (name : String) (b : Bool) (cc : CcRunConfig)
    (disk : ClaudeSettings) (tok : String) (e : Nat)
    (h : getEndpointConfig name cc = none) :
    (runProvider name b cc disk tok e).toolExit = 1 ∧
    (runProvider name b cc disk tok e).launched = none ∧
    (runProvider name b cc disk tok e).ccWrites = [] ∧
    (runProvider name b cc disk tok e).hostWrites = [] ∧
    (runProvider name b cc disk tok e).finalCc = cc ∧
    (runProvider name b cc disk tok e).finalHost = disk := by
  simp [runProvider, h]

/-- Witness for C9 at the concrete unknown provider name "nosuch". -/
theorem unknown_provider_rejected_witness :
    getEndpointConfig "nosuch" {} = none ∧
    (runProvider "nosuch" false {} {} "t" 0).toolExit = 1 ∧
    (runProvider "nosuch" false {} {} "t" 0).launched = none := by
  have h : getEndpointConfig "nosuch" ({} : CcRunConfig) = none := by decide
  have hr := unknown_provider_rejected "nosuch" false {} {} "t" 0 h
  exact ⟨h, hr.1, hr.2.1⟩

/-- Claim C6, no-op skip: when the pre-launch Host-Config has no ANTHROPIC
env keys and the proxy-clear policy is off (or no proxy is set), a
temporary-mode launch performs zero writes to Host-Config. -/
theorem noop_skip (pc : ProxyConfig) (disk : ClaudeSettings) (e : Nat)
    (name : String) (cc : CcRunConfig) (tok : String)
    (h1 : ∀ k ∈ ANTHROPIC_ENV_KEYS, settingsEnvLookup disk k = none)
    (h2 : pc.clearForOfficial ≠ some true ∨ disk.proxy = none) :
    (runOfficial pc disk e).hostWrites = [] ∧
    (runProvider name false cc disk tok e).hostWrites = [] := by
  have hce : officialClearEndpoint disk = false := by
    unfold officialClearEndpoint
    rw [h1 "ANTHROPIC_BASE_URL" (by decide), h1 "ANTHROPIC_AUTH_TOKEN" (by decide)]
    rfl
  have hcp : officialShouldClearProxy pc disk = false := by
    unfold officialShouldClearProxy
    rcases h2 with h | h
    · have hb : (pc.clearForOfficial == some true) = false := beq_eq_false_iff_ne.mpr h
      simp [hb]
    · simp [h]
  have hA : hasAnthropicEnv disk = false :=
    hasAnthropicEnv_eq_false_of_lookups disk (fun k hk => by rw [h1 k hk]; rfl)
  constructor
  · unfold runOfficial officialMutateWrites officialNeedsRestore
    simp [hce, hcp]
  · cases hg : getEndpointConfig name cc with
    | none => simp [runProvider, hg]
    | some ep => simp [runProvider, hg, hA]

/-- Witness for C6 at the empty Host-Config and a disabled proxy policy. -/
theorem noop_skip_witness :
    (runOfficial { enabled := false } {} 0).hostWrites = [] ∧
    (runProvider "glm" false {} {} "tk" 0).hostWrites = [] :=
  noop_skip { enabled := false } {} 0 "glm" {} "tk"
    (fun _ _ => rfl) (Or.inr rfl)

/-- Claim C10, empty-string values count as absent: when every ANTHROPIC key
of Host-Config is absent or maps to the empty string, hasAnthropicEnv is
false and a Provider-temporary launch performs no clear, no Host-Config
write, and no restoration. -/
theorem empty_string_values_treated_absent (disk : ClaudeSettings) (name : String)
    (cc : CcRunConfig) (tok : String) (e : Nat)
    (h : ∀ k ∈ ANTHROPIC_ENV_KEYS,
      settingsEnvLookup disk k = none ∨ settingsEnvLookup disk k = some "") :
    hasAnthropicEnv disk = false ∧
    (runProvider name false cc disk tok e).clearedEnv = false ∧
    (runProvider name false cc disk tok e).hostWrites = [] ∧
    (runProvider name false cc disk tok e).finalHost = disk := by
  have hA : hasAnthropicEnv disk = false :=
    hasAnthropicEnv_eq_false_of_lookups disk
      (fun k hk => by rcases h k hk with h1 | h1 <;> rw [h1] <;> rfl)
  have hrest : (runProvider name false cc disk tok e).clearedEnv = false ∧
      (runProvider name false cc disk tok e).hostWrites = [] ∧
      (runProvider name false cc disk tok e).finalHost = disk := by
    cases hg : getEndpointConfig name cc with
    | none => simp [runProvider, hg]
    | some ep => simp [runProvider, hg, hA]
  exact ⟨hA, hrest.1, hrest.2.1, hrest.2.2⟩

/-- Witness for C10 at a Host-Config whose five ANTHROPIC keys are all
literally present with empty-string values. -/
theorem empty_string_values_treated_absent_witness :
    settingsEnvLookup { env := some [("ANTHROPIC_AUTH_TOKEN", ""), ("ANTHROPIC_BASE_URL", ""),
      ("ANTHROPIC_DEFAULT_HAIKU_MODEL", ""), ("ANTHROPIC_DEFAULT_SONNET_MODEL", ""),
      ("ANTHROPIC_DEFAULT_OPUS_MODEL", "")] } "ANTHROPIC_BASE_URL" = some "" ∧
    hasAnthropicEnv { env := some [("ANTHROPIC_AUTH_TOKEN", ""), ("ANTHROPIC_BASE_URL", ""),
      ("ANTHROPIC_DEFAULT_HAIKU_MODEL", ""), ("ANTHROPIC_DEFAULT_SONNET_MODEL", ""),
      ("ANTHROPIC_DEFAULT_OPUS_MODEL", "")] } = false ∧
    (runProvider "glm" false {} { env := some [("ANTHROPIC_AUTH_TOKEN", ""), ("ANTHROPIC_BASE_URL", ""),
      ("ANTHROPIC_DEFAULT_HAIKU_MODEL", ""), ("ANTHROPIC_DEFAULT_SONNET_MODEL", ""),
      ("ANTHROPIC_DEFAULT_OPUS_MODEL", "")] } "tk" 0).hostWrites = [] := by
  have hw := empty_string_values_treated_absent
    { env := some [("ANTHROPIC_AUTH_TOKEN", ""), ("ANTHROPIC_BASE_URL", ""),
      ("ANTHROPIC_DEFAULT_HAIKU_MODEL", ""), ("ANTHROPIC_DEFAULT_SONNET_MODEL", ""),
      ("ANTHROPIC_DEFAULT_OPUS_MODEL", "")] } "glm" {} "tk" 0 (by decide)
  exact ⟨by decide, hw.1, hw.2.2.1⟩

/-- Claim C2, persist permanence: after a Provider-persist launch completes
with any exit code, Host-Config holds the resolved endpoint base URL and
token, the final document is exactly the one written by setThirdPartyApi
(no restoration of the pre-launch snapshot), and the exit code of the
external program is propagated. -/
theorem persist_permanence (name : String) (cc : CcRunConfig) (disk : ClaudeSettings)
    (tok : String) (e : Nat) (ep : Endpoint)
    (h : getEndpointConfig name cc = some ep) :
    settingsEnvLookup (runProvider name true cc disk tok e).finalHost "ANTHROPIC_BASE_URL"
      = some ep.endpoint ∧
    settingsEnvLookup (runProvider name true cc disk tok e).finalHost "ANTHROPIC_AUTH_TOKEN"
      = some (resolveToken ep cc name tok).1 ∧
    (runProvider name true cc disk tok e).finalHost =
      setThirdPartyApi (if hasAnthropicEnv disk then clearAnthropicEnv disk else disk)
        ep.endpoint (resolveToken ep cc name tok).1 ep.models ∧
    (runProvider name true cc disk tok e).toolExit = e := by
  have hfin : (runProvider name true cc disk tok e).finalHost =
      setThirdPartyApi (if hasAnthropicEnv disk then clearAnthropicEnv disk else disk)
        ep.endpoint (resolveToken ep cc name tok).1 ep.models := by
    by_cases hA : hasAnthropicEnv disk <;> simp [runProvider, h, hA]
  refine ⟨?_, ?_, hfin, ?_⟩
  · rw [hfin]
    exact settingsEnvLookup_setThirdPartyApi_base _ _ _ _
  · rw [hfin]
    exact settingsEnvLookup_setThirdPartyApi_auth _ _ _ _
  · simp [runProvider, h]

/-- Witness for C2: persist-mode launch of the built-in glm endpoint with a
prompted token. -/
theorem persist_permanence_witness :
    settingsEnvLookup (runProvider "glm" true {} {} "tok-2" 7).finalHost "ANTHROPIC_BASE_URL"
      = some "https://open.bigmodel.cn/api/anthropic" ∧
    settingsEnvLookup (runProvider "glm" true {} {} "tok-2" 7).finalHost "ANTHROPIC_AUTH_TOKEN"
      = some "tok-2" ∧
    (runProvider "glm" true {} {} "tok-2" 7).toolExit = 7 := by
  have h : getEndpointConfig "glm" ({} : CcRunConfig) =
      some { name := "glm", endpoint := "https://open.bigmodel.cn/api/anthropic",
             models := some { haiku := some "glm-4.7", opus := some "glm-4.7",
                              sonnet := some "glm-4.7" } } := by
    decide
  have hp := persist_permanence "glm" {} {} "tok-2" 7 _ h
  exact ⟨hp.1, hp.2.1, hp.2.2.2⟩

/-- Claim C7, restore-official mode: the ANTHROPIC keys are removed
(exactly those keys, idempotently) and the result persisted; with passthrough
arguments the external program launches with an environment free of the
Anthropic keys and its exit code is propagated; without passthrough
arguments nothing is launched and the tool exits 0. -/
theorem restore_official_behaviour (args : List String) (disk : ClaudeSettings) (e : Nat) :
    (restoreOfficial args disk e).finalHost = removeThirdPartyApi disk ∧
    (∀ k, settingsEnvLookup (removeThirdPartyApi disk) k =
      if k ∈ ANTHROPIC_ENV_KEYS then none else settingsEnvLookup disk k) ∧
    removeThirdPartyApi (removeThirdPartyApi disk) = removeThirdPartyApi disk ∧
    (args ≠ [] → (restoreOfficial args disk e).launched = some (buildOfficialEnv none) ∧
      (∀ k ∈ ANTHROPIC_ENV_KEYS, envLookup (buildOfficialEnv none) k = none) ∧
      (restoreOfficial args disk e).toolExit = e) ∧
    (args = [] → (restoreOfficial args disk e).launched = none ∧
      (restoreOfficial args disk e).toolExit = 0) := by
  refine ⟨?_, settingsEnvLookup_removeThirdPartyApi disk, removeThirdPartyApi_idem disk, ?_, ?_⟩
  · simp only [restoreOfficial]
    split <;> rfl
  · intro hne
    have hne2 : ¬ (args.isEmpty = true) := by
      cases args with
      | nil => exact absurd rfl hne
      | cons a l => simp
    simp only [restoreOfficial]
    rw [if_neg hne2]
    exact ⟨rfl, fun k _ => rfl, rfl⟩
  · intro heq
    subst heq
    exact ⟨rfl, rfl⟩

/-- Witness for C7: a launchful invocation propagates the exit code of the
external program, and an argumentless invocation exits 0. -/
theorem restore_official_behaviour_witness :
    (restoreOfficial ["--help"] { env := some [("ANTHROPIC_BASE_URL", "https://old")] } 3).toolExit = 3 ∧
    (restoreOfficial ([] : List String) { env := some [("ANTHROPIC_BASE_URL", "https://old")] } 9).toolExit = 0 := by
  have h1 := (restore_official_behaviour ["--help"]
    { env := some [("ANTHROPIC_BASE_URL", "https://old")] } 3).2.2.2.1 (by decide)
  have h2 := (restore_official_behaviour []
    { env := some [("ANTHROPIC_BASE_URL", "https://old")] } 9).2.2.2.2 rfl
  exact ⟨h1.2.2, h2.2⟩

/-- Counterexample to claim C3 as stated: a Host-Config carrying only the
model-mapping key ANTHROPIC_DEFAULT_HAIKU_MODEL (no base URL, no auth token)
does trigger the clear and a Host-Config write in a Provider-temporary
launch, because runProvider decides via hasAnthropicEnv over all five keys. -/
theorem endpoint_clear_decision_counterexample :
    settingsEnvLookup { env := some [("ANTHROPIC_DEFAULT_HAIKU_MODEL", "glm-4.7")] }
      "ANTHROPIC_BASE_URL" = none ∧
    settingsEnvLookup { env := some [("ANTHROPIC_DEFAULT_HAIKU_MODEL", "glm-4.7")] }
      "ANTHROPIC_AUTH_TOKEN" = none ∧
    (runProvider "glm" false { tokens := some [("glm", "tok-1")] }
      { env := some [("ANTHROPIC_DEFAULT_HAIKU_MODEL", "glm-4.7")] } "unused" 0).clearedEnv = true ∧
    (runProvider "glm" false { tokens := some [("glm", "tok-1")] }
      { env := some [("ANTHROPIC_DEFAULT_HAIKU_MODEL", "glm-4.7")] } "unused" 0).hostWrites ≠ [] := by
  decide

/-- Claim C3 amended: the Official-mode endpoint-clear decision is exactly
"ANTHROPIC_BASE_URL or ANTHROPIC_AUTH_TOKEN has a truthy value"; the
Provider-mode clear decision is "some of the five ANTHROPIC keys has a
truthy value" (so model-mapping keys alone do trigger a clear there); and a
Provider-temporary launch writes Host-Config exactly when that decision
holds. -/
theorem endpoint_clear_decision_amended (pc : ProxyConfig) (disk : ClaudeSettings) (e : Nat)
    (name : String) (cc : CcRunConfig) (tok : String) (b : Bool) (ep : Endpoint)
    (h : getEndpointConfig name cc = some ep) :
    (runOfficial pc disk e).clearedEndpoint =
      (truthy (settingsEnvLookup disk "ANTHROPIC_BASE_URL") ||
       truthy (settingsEnvLookup disk "ANTHROPIC_AUTH_TOKEN")) ∧
    (runProvider name b cc disk tok e).clearedEnv =
      ANTHROPIC_ENV_KEYS.any (fun k => truthy (settingsEnvLookup disk k)) ∧
    ((runProvider name false cc disk tok e).hostWrites = [] ↔ hasAnthropicEnv disk = false) := by
  refine ⟨rfl, ?_, ?_⟩
  · have hc : (runProvider name b cc disk tok e).clearedEnv = hasAnthropicEnv disk := by
      simp [runProvider, h]
    rw [hc, hasAnthropicEnv_eq_any]
  · by_cases hA : hasAnthropicEnv disk <;> simp [runProvider, h, hA]

/-- Witness for the amended C3 at concrete inputs. -/
theorem endpoint_clear_decision_amended_witness :
    (runOfficial { enabled := false } {} 0).clearedEndpoint = false ∧
    (runProvider "glm" false { tokens := some [("glm", "tok-1")] } {} "u" 0).clearedEnv = false := by
  have h := endpoint_clear_decision_amended { enabled := false } {} 0
    "glm" { tokens := some [("glm", "tok-1")] } "u" false
    { name := "glm", endpoint := "https://open.bigmodel.cn/api/anthropic",
      models := some { haiku := some "glm-4.7", opus := some "glm-4.7",
                       sonnet := some "glm-4.7" } } (by decide)
  exact ⟨h.1, h.2.1⟩

theorem all_keys_envSet (m : EnvMap) (k v : String) (pred : String → Bool)
    (hm : m.all (fun kv => pred kv.1) = true) (hk : pred k = true) :
    (envSet m k v).all (fun kv => pred kv.1) = true := by
  induction m with
  | nil => simp [envSet, hk]
  | cons p rest ih =>
    simp only [List.all_cons, Bool.and_eq_true] at hm
    by_cases hp : p.1 = k
    · have hb : (p.1 == k) = true := by simp [hp]
      simp [envSet, hb, hk, hm.2]
    · have hb : (p.1 == k) = false := beq_eq_false_iff_ne.mpr hp
      simp [envSet, hb, hm.1, ih hm.2]

theorem setCustomEndpointToken_tokens_eq (c : CcRunConfig) (name : String) (t : Option String) :
    (setCustomEndpointToken c name t).2.tokens = c.tokens := by
  obtain ⟨eps, tks, lu, pr⟩ := c
  cases eps with
  | none => rfl
  | some es =>
    simp only [setCustomEndpointToken]
    cases updateEndpointToken es name t <;> rfl

/-- Counterexample to claim C4 as stated: starting from a Launcher-Config
whose tokens map is empty and whose only endpoint is the custom "mycustom"
without a stored token, a provider-mode launch prompts for a token and
stores it in the tokens map under the custom name, breaking the invariant. -/
theorem tokens_map_invariant_counterexample :
    tokensOnlyBuiltin { endpoints := some [{ name := "mycustom", endpoint := "https://x.example/api" }],
                        tokens := some [] } = true ∧
    isBuiltinEndpoint "mycustom" = false ∧
    (runProvider "mycustom" false
      { endpoints := some [{ name := "mycustom", endpoint := "https://x.example/api" }],
        tokens := some [] } {} "tok-9" 0).prompted = true ∧
    getToken (runProvider "mycustom" false
      { endpoints := some [{ name := "mycustom", endpoint := "https://x.example/api" }],
        tokens := some [] } {} "tok-9" 0).finalCc "mycustom" = some "tok-9" ∧
    tokensOnlyBuiltin (runProvider "mycustom" false
      { endpoints := some [{ name := "mycustom", endpoint := "https://x.example/api" }],
        tokens := some [] } {} "tok-9" 0).finalCc = false := by
  decide

/-- Claim C4 amended: the token-set command does preserve the
builtin-names-only invariant of the tokens map (custom endpoint tokens go to
the descriptor); but a token prompted during a provider-mode launch is
always stored in the tokens map under the provider name, even for a custom
endpoint, so the invariant does not hold across every operation. -/
theorem tokens_map_invariant_amended (p : String) (given : Option String) (ans : String)
    (cc : CcRunConfig) (name : String) (b : Bool) (disk : ClaudeSettings)
    (tok : String) (e : Nat)
    (hinv : tokensOnlyBuiltin cc = true) :
    tokensOnlyBuiltin (tokenSet p given ans cc).finalCc = true ∧
    ((runProvider name b cc disk tok e).prompted = true →
      getToken (runProvider name b cc disk tok e).finalCc name = some tok) := by
  constructor
  · unfold tokenSet
    split
    · exact hinv
    · cases hb : isBuiltinEndpoint p with
      | true =>
        simp only [hb, if_true]
        unfold tokensOnlyBuiltin saveToken at *
        simp only [Option.getD_some]
        exact all_keys_envSet _ _ _ _ hinv hb
      | false =>
        simp only [hb, Bool.false_eq_true, if_false]
        unfold tokensOnlyBuiltin
        rw [setCustomEndpointToken_tokens_eq]
        exact hinv
  · intro hpr
    cases hg : getEndpointConfig name cc with
    | none => simp [runProvider, hg] at hpr
    | some ep =>
      simp only [runProvider, hg] at hpr ⊢
      simp only [hpr, if_true]
      simp [getToken, setLastUsed, saveToken, envLookup_envSet_self]

/-- Witness for the amended C4: a built-in token-set keeps the invariant,
and a prompted provider launch caches the token under the provider name. -/
theorem tokens_map_invariant_amended_witness :
    tokensOnlyBuiltin (tokenSet "glm" none "tk" {}).finalCc = true ∧
    getToken (runProvider "glm" false {} {} "tk2" 0).finalCc "glm" = some "tk2" := by
  have h := tokens_map_invariant_amended "glm" none "tk" {} "glm" false {} "tk2" 0 rfl
  exact ⟨h.1, h.2 (by decide)⟩

/-- Claim C8 evidence: with a Host-Config holding third-party endpoint
values, an Official-mode invocation whose spawn fails at the spawn level
mutates Host-Config (a clear is written) but never attempts the
restoration, leaving the document different from the pre-launch snapshot,
whereas the same invocation with a normal exit restores it. -/
theorem spawn_failure_skips_restore :
    officialClearEndpoint { env := some [("ANTHROPIC_BASE_URL", "https://old"),
                                         ("ANTHROPIC_AUTH_TOKEN", "old-key")] } = true ∧
    (runOfficialSpawn { enabled := false } { env := some [("ANTHROPIC_BASE_URL", "https://old"),
        ("ANTHROPIC_AUTH_TOKEN", "old-key")] } SpawnOutcome.spawnError).hostWrites ≠ [] ∧
    (runOfficialSpawn { enabled := false } { env := some [("ANTHROPIC_BASE_URL", "https://old"),
        ("ANTHROPIC_AUTH_TOKEN", "old-key")] } SpawnOutcome.spawnError).restoreAttempted = false ∧
    (runOfficialSpawn { enabled := false } { env := some [("ANTHROPIC_BASE_URL", "https://old"),
        ("ANTHROPIC_AUTH_TOKEN", "old-key")] } SpawnOutcome.spawnError).finalHost ≠
      { env := some [("ANTHROPIC_BASE_URL", "https://old"), ("ANTHROPIC_AUTH_TOKEN", "old-key")] } ∧
    (runOfficialSpawn { enabled := false } { env := some [("ANTHROPIC_BASE_URL", "https://old"),
        ("ANTHROPIC_AUTH_TOKEN", "old-key")] } (SpawnOutcome.exited 0)).finalHost =
      { env := some [("ANTHROPIC_BASE_URL", "https://old"), ("ANTHROPIC_AUTH_TOKEN", "old-key")] } := by
  decide

end CcRun
